import Mathlib

/-!
Shallow embedding of the PlushPal client (src/app.js): session credential
acquisition, WebRTC session establishment, the conversation start/stop
operations over the control data channel, microphone capture lifecycle,
inbound audio-chunk playback, and process cleanup.  Module-level mutable
variables of the source (peerConnection, dataChannel, recording,
conversationActive) become fields of an explicit state record; each source
function becomes a pure state transformer.  External effects that the code
only observes (the HTTP response, the result of createOffer, whether aplay
succeeded) are passed in as parameters.
-/

namespace PlushPal

/-- Outbound control messages.  The source builds a JS object and sends
`JSON.stringify(event)` over the data channel; we keep the structured form,
abstracting the (injective) serialization. -/
inductive OutMsg where
  | responseCreate (modalities : List String) (instructions : String)
  | responseStop
deriving DecidableEq, Repr

/-- One console.log / console.error call site of the source, as a structured
log entry (one constructor per distinct message shape). -/
inductive LogEntry where
  | initializingWebRTC
  | webrtcInitError (msg : String)
  | connectedToAPI
  | startingRecording
  | recordingStarted
  | recordingError (err : String)
  | recordingStopped
  | startedConversation
  | stoppedConversation
  | dataChannelNotReady
  | receivedEvent (ty : String)
  | playingAudioChunk
  | errorPlayingChunk
  | cleaningUp
deriving DecidableEq, Repr

/-- The data channel created by `peerConnection.createDataChannel('oai-events')`:
its readyState string and the ordered list of messages transmitted on it. -/
structure DataChannel where
  label : String
  readyState : String
  sent : List OutMsg
deriving DecidableEq, Repr

/-- The RTCPeerConnection handle: connection state, the local and remote
session descriptions (the remote one paired with its type tag), and whether
`close()` has been called. -/
structure PeerConnection where
  connectionState : String
  localDescription : Option String
  remoteDescription : Option (String × String)
  closed : Bool
deriving DecidableEq, Repr

/-- The handle returned by `record.record(options)` in startRecording. -/
structure RecordingHandle where
  sampleRate : Nat
  device : String
  channels : Nat
  recorder : String
  audioType : String
deriving DecidableEq, Repr

/-- The module-level mutable state of src/app.js, plus the observable console
log and the temp-directory file system (path, contents). -/
structure AppState where
  peerConnection : Option PeerConnection
  dataChannel : Option DataChannel
  recording : Option RecordingHandle
  conversationActive : Bool
  log : List LogEntry
  tempFiles : List (String × String)
deriving DecidableEq, Repr

def SAMPLE_RATE : Nat := 48000

def AUDIO_DEVICE : String := "plughw:1,0"

/-- State at module load: all four mutable variables at their initializers
(`null`, `null`, `null`, `false`), nothing logged, temp dir empty. -/
def initialState : AppState :=
  { peerConnection := none, dataChannel := none, recording := none,
    conversationActive := false, log := [], tempFiles := [] }

/-- `fs.writeFileSync(name, content)` on the modelled temp directory:
overwrites any existing entry of that name. -/
def fsWrite (fs : List (String × String)) (name content : String) :
    List (String × String) :=
  fs.filter (fun f => f.1 != name) ++ [(name, content)]

/-- `fs.unlinkSync(name)` on the modelled temp directory. -/
def fsUnlink (fs : List (String × String)) (name : String) :
    List (String × String) :=
  fs.filter (fun f => f.1 != name)

/-- startRecording (src/app.js:199): logs, creates the recorder handle with
the fixed options and assigns it to the `recording` variable, logs again.
The `.on('error', ...)` handler it registers is modelled by
`onRecordingError` below, invoked by the environment when the capture
stream raises an error. -/
def startRecording (s : AppState) : AppState :=
  { s with
    recording := some
      { sampleRate := SAMPLE_RATE, device := AUDIO_DEVICE, channels := 1,
        recorder := "arecord", audioType := "wav" },
    log := s.log ++ [LogEntry.startingRecording, LogEntry.recordingStarted] }

/-- The `.on('error', err => console.error('Recording error:', err))` handler
attached to the capture stream in startRecording (src/app.js:220-222): it
only logs the error; it touches neither `recording` nor
`conversationActive`. -/
def onRecordingError (err : String) (s : AppState) : AppState :=
  { s with log := s.log ++ [LogEntry.recordingError err] }

/-- stopRecording (src/app.js:228): if a recorder handle exists, stop it,
null the variable and log; otherwise do nothing. -/
def stopRecording (s : AppState) : AppState :=
  match s.recording with
  | some _ => { s with recording := none, log := s.log ++ [LogEntry.recordingStopped] }
  | none => s

/-- The `response.create` event sent by startConversation. -/
def startDirective : OutMsg :=
  OutMsg.responseCreate ["text", "audio"] "Hello, how can I help you today?"

/-- `dataChannel.send(...)`: append the message to the transmitted list. -/
def dcSend (m : OutMsg) (dc : DataChannel) : DataChannel :=
  { dc with sent := dc.sent ++ [m] }

/-- Whether `dataChannel && dataChannel.readyState === 'open'` holds. -/
def channelReady (s : AppState) : Bool :=
  match s.dataChannel with
  | some dc => dc.readyState == "open"
  | none => false

/-- startConversation (src/app.js:237): if the data channel exists and is
open, send the start directive, log, start recording and set
`conversationActive = true`; otherwise only log that the channel is not
ready. -/
def startConversation (s : AppState) : AppState :=
  match s.dataChannel with
  | some dc =>
    if dc.readyState == "open" then
      let s1 := { s with dataChannel := some (dcSend startDirective dc),
                         log := s.log ++ [LogEntry.startedConversation] }
      let s2 := startRecording s1
      { s2 with conversationActive := true }
    else
      { s with log := s.log ++ [LogEntry.dataChannelNotReady] }
  | none => { s with log := s.log ++ [LogEntry.dataChannelNotReady] }

/-- stopConversation (src/app.js:257): if the data channel exists and is
open, send `response.stop`, log, stop recording and set
`conversationActive = false`; otherwise do nothing at all.  Note the guard
tests only the channel, never `conversationActive`, and the peer connection
is not touched. -/
def stopConversation (s : AppState) : AppState :=
  match s.dataChannel with
  | some dc =>
    if dc.readyState == "open" then
      let s1 := { s with dataChannel := some (dcSend OutMsg.responseStop dc),
                         log := s.log ++ [LogEntry.stoppedConversation] }
      let s2 := stopRecording s1
      { s2 with conversationActive := false }
    else s
  | none => s

/-- cleanup (src/app.js:294): log, stop recording, close the peer connection
if one exists (the handle itself is kept, and `conversationActive` is not
reset); the source then calls `rl.close()` and `process.exit(0)`. -/
def cleanup (s : AppState) : AppState :=
  let s1 := { s with log := s.log ++ [LogEntry.cleaningUp] }
  let s2 := stopRecording s1
  match s2.peerConnection with
  | some pc => { s2 with peerConnection := some { pc with closed := true } }
  | none => s2

/-- Environment event: the data channel reports open (RTCDataChannel
readyState becomes "open"). -/
def channelOpen (s : AppState) : AppState :=
  match s.dataChannel with
  | some dc => { s with dataChannel := some { dc with readyState := "open" } }
  | none => s

/-! ## getEphemeralKey (src/app.js:49-98)

The response-end handler inspects `res.statusCode` and the accumulated
`responseData`, runs `JSON.parse` on it and resolves
`parsedData.client_secret.value`.  JSON values are modelled by `Jv`;
`JSON.parse` (a platform primitive, not repository code) is passed in as
the already-parsed value, `none` meaning the parse threw. -/

/-- A parsed JSON value. -/
inductive Jv where
  | jnull
  | jbool (b : Bool)
  | jnum (n : Int)
  | jstr (s : String)
  | jarr (xs : List Jv)
  | jobj (fields : List (String × Jv))
deriving Repr

/-- JavaScript member access `base.key`, where `base` may be `undefined`
(`none`).  Accessing a property of `undefined` or `null` throws a
TypeError (`Except.error`); on an object it yields the property value, or
`undefined` (`Option.none`) when absent; on any other value it yields
`undefined` without throwing. -/
def jsAccess (base : Option Jv) (key : String) : Except Unit (Option Jv) :=
  match base with
  | none => Except.error ()
  | some Jv.jnull => Except.error ()
  | some (Jv.jobj fields) =>
      Except.ok ((fields.find? (fun f => f.1 == key)).map (fun f => f.2))
  | some _ => Except.ok none

/-- Outcome of the getEphemeralKey promise: it resolves with a (possibly
`undefined`) value, rejects with the parse-failure error, or rejects with
the request-failed error carrying the status code and response body. -/
inductive KeyResult where
  | ok (v : Option Jv)
  | parseError
  | statusError (status : Nat) (body : String)
deriving Repr

/-- The `res.on('end', ...)` handler of getEphemeralKey: on status 200 parse
the body and resolve `parsedData.client_secret.value`, any exception in
that block rejecting with the parse-failure error; on any other status
reject with an error carrying the status code and body verbatim. -/
def getEphemeralKey (statusCode : Nat) (responseData : String)
    (parsed : Option Jv) : KeyResult :=
  if statusCode == 200 then
    match parsed with
    | none => KeyResult.parseError
    | some parsedData =>
      match jsAccess (some parsedData) "client_secret" with
      | Except.error _ => KeyResult.parseError
      | Except.ok clientSecret =>
        match jsAccess clientSecret "value" with
        | Except.error _ => KeyResult.parseError
        | Except.ok v => KeyResult.ok v
  else KeyResult.statusError statusCode responseData

/-! ## initWebRTC (src/app.js:101-196) -/

/-- The signaling response seen by `fetch`: HTTP status and raw text body. -/
structure FetchResponse where
  status : Nat
  body : String
deriving DecidableEq, Repr

/-- The negotiation actions initWebRTC performs on the peer connection and
the network, in order: `createOffer`, `setLocalDescription`, the POST of
the local SDP to the signaling endpoint, and `setRemoteDescription` of the
answer (type tag and SDP). -/
inductive NegStep where
  | createOffer
  | setLocal (sdp : String)
  | postOffer (sdp : String)
  | applyAnswer (ty : String) (sdp : String)
deriving DecidableEq, Repr

/-- initWebRTC: inside a try/catch, assign a fresh peer connection and a
fresh `oai-events` data channel to the module variables, create the offer
(`offerResult`, which may throw), set it as local description, POST its
SDP to the signaling endpoint (`fetchResult`, which may throw a network
error), throw on a non-ok (outside 200-299) status, otherwise apply
`{type: 'answer', sdp: body}` as remote description and return true; the
catch logs the error and returns false.  Returns (the boolean result, the
trace of negotiation actions performed, the final state). -/
def initWebRTC (offerResult : Except String String)
    (fetchResult : Except String FetchResponse)
    (s : AppState) : Bool × List NegStep × AppState :=
  let pc0 : PeerConnection :=
    { connectionState := "new", localDescription := none,
      remoteDescription := none, closed := false }
  let dc0 : DataChannel :=
    { label := "oai-events", readyState := "connecting", sent := [] }
  let s1 := { s with peerConnection := some pc0, dataChannel := some dc0,
                     log := s.log ++ [LogEntry.initializingWebRTC] }
  match offerResult with
  | Except.error e =>
      (false, [NegStep.createOffer],
       { s1 with log := s1.log ++ [LogEntry.webrtcInitError e] })
  | Except.ok offerSdp =>
    let pc1 := { pc0 with localDescription := some offerSdp }
    let s2 := { s1 with peerConnection := some pc1 }
    let trace := [NegStep.createOffer, NegStep.setLocal offerSdp,
                  NegStep.postOffer offerSdp]
    match fetchResult with
    | Except.error e =>
        (false, trace, { s2 with log := s2.log ++ [LogEntry.webrtcInitError e] })
    | Except.ok resp =>
      if 200 ≤ resp.status ∧ resp.status ≤ 299 then
        let pc2 := { pc1 with remoteDescription := some ("answer", resp.body) }
        (true, trace ++ [NegStep.applyAnswer "answer" resp.body],
         { s2 with peerConnection := some pc2,
                   log := s2.log ++ [LogEntry.connectedToAPI] })
      else
        (false, trace,
         { s2 with log := s2.log ++
             [LogEntry.webrtcInitError
               ("HTTP error! status: " ++ toString resp.status)] })

/-! ## handleAudioChunk and the data-channel message handler
(src/app.js:148-156, 267-291) -/

/-- The `event.audio` payload: its `data` field holds base64 audio text, or
may be absent. -/
structure AudioPayload where
  data : Option String
deriving DecidableEq, Repr

/-- A parsed inbound data-channel event: its `type` discriminator and the
optional `audio` field. -/
structure InEvent where
  type : String
  audio : Option AudioPayload
deriving DecidableEq, Repr

/-- The temp-file path `chunk-${Date.now()}.wav` used by handleAudioChunk. -/
def chunkFile (now : Nat) : String :=
  "temp/chunk-" ++ toString now ++ ".wav"

/-- handleAudioChunk: when `event.audio && event.audio.data` is truthy
(both present and the data non-empty — the empty string is falsy in JS),
write the decoded data to a fresh temp file, log and play it; the play
callback logs the error on failure and unlinks the file on success.
`now` stands for `Date.now()`, `playOk` for whether aplay succeeded; the
decoded bytes are represented by the base64 text itself (decoding is an
injective platform primitive).  Otherwise the event is ignored. -/
def handleAudioChunk (now : Nat) (playOk : Bool) (ev : InEvent)
    (s : AppState) : AppState :=
  match ev.audio with
  | some payload =>
    match payload.data with
    | some b64 =>
      if b64 == "" then s
      else
        let s1 := { s with tempFiles := fsWrite s.tempFiles (chunkFile now) b64,
                           log := s.log ++ [LogEntry.playingAudioChunk] }
        if playOk then
          { s1 with tempFiles := fsUnlink s1.tempFiles (chunkFile now) }
        else
          { s1 with log := s1.log ++ [LogEntry.errorPlayingChunk] }
    | none => s
  | none => s

/-- The data channel `message` listener (src/app.js:148-156): log the
received event type; if it is `audio.chunk`, hand it to handleAudioChunk. -/
def onMessage (now : Nat) (playOk : Bool) (ev : InEvent) (s : AppState) :
    AppState :=
  let s1 := { s with log := s.log ++ [LogEntry.receivedEvent ev.type] }
  if ev.type == "audio.chunk" then handleAudioChunk now playOk ev s1 else s1

/-- Deliver a sequence of inbound data-channel events in order, each with
its arrival time and playback outcome. -/
def processMessages : List (Nat × Bool × InEvent) → AppState → AppState
  | [], s => s
  | m :: rest, s => processMessages rest (onMessage m.1 m.2.1 m.2.2 s)

/-- Whether an inbound event is an `audio.chunk` carrying truthy audio
data, i.e. one for which handleAudioChunk attempts playback. -/
def isAudioChunkWithData (ev : InEvent) : Bool :=
  ev.type == "audio.chunk" &&
    (match ev.audio with
     | some p => (match p.data with | some b => !(b == "") | none => false)
     | none => false)

/-- Number of playback attempts recorded in the log. -/
def playsAttempted (s : AppState) : Nat :=
  (s.log.filter (fun e => e == LogEntry.playingAudioChunk)).length

/-! ## Reachability

One step of the program: an operation the source can perform, or an
environment event it reacts to.  `StepNC` omits `cleanup` (the
process-exit teardown); `StepFull` includes it. -/

/-- A non-teardown step of the program. -/
inductive StepNC : AppState → AppState → Prop where
  | init (o : Except String String) (f : Except String FetchResponse)
      (s : AppState) : StepNC s (initWebRTC o f s).2.2
  | chanOpen (s : AppState) : StepNC s (channelOpen s)
  | start (s : AppState) : StepNC s (startConversation s)
  | stop (s : AppState) : StepNC s (stopConversation s)
  | recErr (e : String) (s : AppState) : StepNC s (onRecordingError e s)
  | msg (n : Nat) (ok : Bool) (ev : InEvent) (s : AppState) :
      StepNC s (onMessage n ok ev s)

/-- States reachable from the module-load state without teardown. -/
inductive ReachableNC : AppState → Prop where
  | start : ReachableNC initialState
  | step {s s' : AppState} : ReachableNC s → StepNC s s' → ReachableNC s'

/-- A step of the program, teardown included. -/
inductive StepFull : AppState → AppState → Prop where
  | nc {s s' : AppState} : StepNC s s' → StepFull s s'
  | teardown (s : AppState) : StepFull s (cleanup s)

/-- States reachable from the module-load state, teardown included. -/
inductive ReachableFull : AppState → Prop where
  | start : ReachableFull initialState
  | step {s s' : AppState} : ReachableFull s → StepFull s s' → ReachableFull s'

/-! ## Concrete scenario states -/

/-- State after a successful initWebRTC from module load. -/
def connectedState : AppState :=
  (initWebRTC (Except.ok "v=0 offer") (Except.ok ⟨200, "v=0 answer"⟩)
    initialState).2.2

/-- ... after the data channel then reports open. -/
def openedState : AppState := channelOpen connectedState

/-- ... after startConversation: the conversation is Active and capture is
running. -/
def activeState : AppState := startConversation openedState

/-- ... after cleanup is invoked from the Active state. -/
def tornDownState : AppState := cleanup activeState

/-! ## Preservation lemmas -/

theorem handleAudioChunk_preserves (n : Nat) (ok : Bool) (ev : InEvent)
    (s : AppState) :
    (handleAudioChunk n ok ev s).recording = s.recording ∧
    (handleAudioChunk n ok ev s).conversationActive = s.conversationActive ∧
    (handleAudioChunk n ok ev s).dataChannel = s.dataChannel ∧
    (handleAudioChunk n ok ev s).peerConnection = s.peerConnection := by
  obtain ⟨ty, audio⟩ := ev
  cases audio with
  | none => exact ⟨rfl, rfl, rfl, rfl⟩
  | some p =>
    obtain ⟨d⟩ := p
    cases d with
    | none => exact ⟨rfl, rfl, rfl, rfl⟩
    | some b =>
      by_cases hb : b == "" <;> by_cases hok : ok <;>
        simp [handleAudioChunk, hb, hok]

theorem onMessage_preserves (n : Nat) (ok : Bool) (ev : InEvent)
    (s : AppState) :
    (onMessage n ok ev s).recording = s.recording ∧
    (onMessage n ok ev s).conversationActive = s.conversationActive ∧
    (onMessage n ok ev s).dataChannel = s.dataChannel ∧
    (onMessage n ok ev s).peerConnection = s.peerConnection := by
  unfold onMessage
  by_cases h : ev.type == "audio.chunk"
  · simpa [h] using handleAudioChunk_preserves n ok ev
      { s with log := s.log ++ [LogEntry.receivedEvent ev.type] }
  · simp [h]

theorem initWebRTC_recording (o : Except String String)
    (f : Except String FetchResponse) (s : AppState) :
    (initWebRTC o f s).2.2.recording = s.recording := by
  unfold initWebRTC
  cases o with
  | error e => rfl
  | ok sdp =>
    cases f with
    | error e => rfl
    | ok resp =>
      by_cases h : 200 ≤ resp.status ∧ resp.status ≤ 299 <;> simp [h]

theorem initWebRTC_active (o : Except String String)
    (f : Except String FetchResponse) (s : AppState) :
    (initWebRTC o f s).2.2.conversationActive = s.conversationActive := by
  unfold initWebRTC
  cases o with
  | error e => rfl
  | ok sdp =>
    cases f with
    | error e => rfl
    | ok resp =>
      by_cases h : 200 ≤ resp.status ∧ resp.status ≤ 299 <;> simp [h]

theorem stopRecording_spec (s : AppState) :
    (stopRecording s).recording = none ∧
    (stopRecording s).dataChannel = s.dataChannel ∧
    (stopRecording s).peerConnection = s.peerConnection ∧
    (stopRecording s).conversationActive = s.conversationActive ∧
    (stopRecording s).tempFiles = s.tempFiles := by
  unfold stopRecording
  cases h : s.recording <;> simp [h]

theorem channelOpen_preserves (s : AppState) :
    (channelOpen s).recording = s.recording ∧
    (channelOpen s).conversationActive = s.conversationActive := by
  unfold channelOpen
  cases h : s.dataChannel <;> simp

theorem stepNC_preserves {s s' : AppState} (hs : StepNC s s')
    (ih : s.recording.isSome = s.conversationActive) :
    s'.recording.isSome = s'.conversationActive := by
  cases hs with
  | init o f => rw [initWebRTC_recording, initWebRTC_active]; exact ih
  | chanOpen =>
    rw [(channelOpen_preserves s).1, (channelOpen_preserves s).2]; exact ih
  | start =>
    unfold startConversation
    cases hdc : s.dataChannel with
    | none => simpa using ih
    | some dc =>
      by_cases hop : dc.readyState == "open"
      · simp [hop, startRecording]
      · simpa [hop] using ih
  | stop =>
    unfold stopConversation
    cases hdc : s.dataChannel with
    | none => simpa using ih
    | some dc =>
      by_cases hop : dc.readyState == "open"
      · have hsr := stopRecording_spec
          { s with dataChannel := some (dcSend OutMsg.responseStop dc),
                   log := s.log ++ [LogEntry.stoppedConversation] }
        simp [hop, hsr.1]
      · simpa [hop] using ih
  | recErr e => simpa [onRecordingError] using ih
  | msg n ok ev =>
    rw [(onMessage_preserves n ok ev s).1, (onMessage_preserves n ok ev s).2.1]
    exact ih

/-! ## Claims -/

/-- C1 counterexample: in a reachable Active state, a read error raised by
the capture stream leaves capture running and the conversation Active —
the handler only logs (src/app.js:220-222) — contradicting the claim that
recording is stopped and `conversationActive` becomes false. -/
theorem C1_read_error_counterexample :
    activeState.conversationActive = true ∧
    activeState.recording.isSome = true ∧
    (onRecordingError "device read failure" activeState).recording.isSome = true ∧
    (onRecordingError "device read failure" activeState).conversationActive = true := by
  decide

/-- C1 amended: a capture-stream read error is reported (logged) but is not
fatal: for every state and every error, the handler leaves `recording` and
`conversationActive` untouched and only appends the error report to the
log; capture is not stopped and the conversation does not transition. -/
theorem C1_read_error_amended (err : String) (s : AppState) :
    (onRecordingError err s).recording = s.recording ∧
    (onRecordingError err s).conversationActive = s.conversationActive ∧
    (onRecordingError err s).log = s.log ++ [LogEntry.recordingError err] :=
  ⟨rfl, rfl, rfl⟩

/-- C2 counterexample: end() from the reachable Active state with the
control channel open leaves the peer connection retained and not closed —
stopConversation (src/app.js:257-264) never touches it — contradicting the
claim that end() releases (closes and discards) the peer connection. -/
theorem C2_end_counterexample :
    activeState.conversationActive = true ∧
    channelReady activeState = true ∧
    (stopConversation activeState).peerConnection.isSome = true ∧
    (stopConversation activeState).peerConnection.map PeerConnection.closed =
      some false := by
  decide

/-- C2 amended: end() while Active with the control channel open sends the
stop directive, stops capture and leaves the state Idle, but the peer
connection is not released: the handle is left exactly as it was (neither
closed nor discarded); it is only closed by the process-exit cleanup. -/
theorem C2_end_amended (s : AppState) (dc : DataChannel)
    (hdc : s.dataChannel = some dc) (hop : dc.readyState = "open")
    (hact : s.conversationActive = true) :
    (stopConversation s).dataChannel = some (dcSend OutMsg.responseStop dc) ∧
    (stopConversation s).recording = none ∧
    (stopConversation s).conversationActive = false ∧
    (stopConversation s).peerConnection = s.peerConnection := by
  unfold stopConversation
  rw [hdc]
  have hcond : (dc.readyState == "open") = true := by simp [hop]
  simp only [hcond, if_true]
  have hs := stopRecording_spec
    { s with dataChannel := some (dcSend OutMsg.responseStop dc),
             log := s.log ++ [LogEntry.stoppedConversation] }
  exact ⟨hs.2.1, hs.1, by trivial, hs.2.2.1⟩

/-- C2 witness: the amended statement at the reachable Active state. -/
theorem C2_end_witness :
    activeState.dataChannel = some
      { label := "oai-events", readyState := "open", sent := [startDirective] } ∧
    activeState.conversationActive = true ∧
    (stopConversation activeState).dataChannel = some (dcSend OutMsg.responseStop
      { label := "oai-events", readyState := "open", sent := [startDirective] }) ∧
    (stopConversation activeState).recording = none ∧
    (stopConversation activeState).conversationActive = false ∧
    (stopConversation activeState).peerConnection = activeState.peerConnection := by
  have h := C2_end_amended activeState
    { label := "oai-events", readyState := "open", sent := [startDirective] }
    (by decide) rfl (by decide)
  exact ⟨by decide, by decide, h.1, h.2.1, h.2.2.1, h.2.2.2⟩

/-- C5: attempting to begin a conversation before the control channel is
open performs exactly one change — the channel-not-ready report is logged.
In particular no start directive is sent (the data channel, hence its
transmitted-message list, is unchanged), nothing is queued (the state is
otherwise identical, and the state carries no queue), and the conversation
does not become Active. -/
theorem C5_send_before_open (s : AppState) (h : channelReady s = false) :
    startConversation s = { s with log := s.log ++ [LogEntry.dataChannelNotReady] } := by
  unfold channelReady at h
  unfold startConversation
  cases hdc : s.dataChannel with
  | none => rfl
  | some dc =>
    rw [hdc] at h
    have h' : (dc.readyState == "open") = false := h
    simp [h']

/-- C5 witness: at the state right after a successful initWebRTC, where the
data channel exists but is still connecting. -/
theorem C5_send_before_open_witness :
    channelReady connectedState = false ∧
    startConversation connectedState =
      { connectedState with log := connectedState.log ++ [LogEntry.dataChannelNotReady] } :=
  ⟨by decide, C5_send_before_open connectedState (by decide)⟩

/-- C6 counterexample: end() while Idle is not a no-op for every
configuration of the handles: with the conversation Idle but the control
channel open, stopConversation — whose guard (src/app.js:258) tests only
the channel, never `conversationActive` — does send a stop directive. -/
theorem C6_end_idle_counterexample :
    openedState.conversationActive = false ∧
    (stopConversation openedState).dataChannel.map DataChannel.sent =
      some [OutMsg.responseStop] := by
  decide

/-- C6 amended: end() while Idle (conversation inactive, capture not
running) leaves the state Idle and starts nothing; it is a true no-op when
the control channel is not open, but when the channel is open it still
sends a stop directive (and logs), the only changes made. -/
theorem C6_end_idle_amended (s : AppState)
    (hact : s.conversationActive = false) (hrec : s.recording = none) :
    (channelReady s = false → stopConversation s = s) ∧
    (∀ dc, s.dataChannel = some dc → dc.readyState = "open" →
      stopConversation s =
        { s with dataChannel := some (dcSend OutMsg.responseStop dc),
                 log := s.log ++ [LogEntry.stoppedConversation] }) := by
  constructor
  · intro h
    unfold channelReady at h
    unfold stopConversation
    cases hdc : s.dataChannel with
    | none => rfl
    | some dc =>
      rw [hdc] at h
      have h' : (dc.readyState == "open") = false := h
      simp [h']
  · intro dc hdc hop
    unfold stopConversation
    rw [hdc]
    have hcond : (dc.readyState == "open") = true := by simp [hop]
    simp only [hcond, if_true]
    simp [stopRecording, hrec, hact]

/-- C6 witness: the amended statement at the reachable Idle state whose
channel has just opened. -/
theorem C6_end_idle_witness :
    openedState.conversationActive = false ∧
    openedState.recording = none ∧
    stopConversation openedState =
      { openedState with
          dataChannel := some (dcSend OutMsg.responseStop
            { label := "oai-events", readyState := "open", sent := [] }),
          log := openedState.log ++ [LogEntry.stoppedConversation] } := by
  refine ⟨by decide, by decide, ?_⟩
  exact (C6_end_idle_amended openedState (by decide) (by decide)).2
    { label := "oai-events", readyState := "open", sent := [] } (by decide) rfl

/-- C3 counterexample: when the signaling exchange fails (status 401),
initWebRTC returns false but the peer-connection and data-channel handles
assigned before the failing step are still retained in module state —
the catch block (src/app.js:192-195) never clears them — contradicting the
claim that no partial state is left wired. -/
theorem C3_init_failure_counterexample :
    (initWebRTC (Except.ok "v=0 offer") (Except.ok ⟨401, "unauthorized"⟩)
      initialState).1 = false ∧
    (initWebRTC (Except.ok "v=0 offer") (Except.ok ⟨401, "unauthorized"⟩)
      initialState).2.2.peerConnection.isSome = true ∧
    (initWebRTC (Except.ok "v=0 offer") (Except.ok ⟨401, "unauthorized"⟩)
      initialState).2.2.dataChannel.isSome = true := by
  decide

/-- C3 amended: on any step failure — offer creation throwing, the
signaling fetch throwing, or a non-success signaling status — initWebRTC
surfaces the error (logs it and returns false) and the conversation state
is untouched (Idle stays Idle), but the peer-connection and data-channel
handles assigned before the failure remain retained. -/
theorem C3_init_failure_amended (s : AppState) (e : String)
    (o : String) (fr : Except String FetchResponse) (resp : FetchResponse)
    (hresp : ¬(200 ≤ resp.status ∧ resp.status ≤ 299)) :
    ((initWebRTC (Except.error e) fr s).1 = false ∧
     (initWebRTC (Except.error e) fr s).2.2.peerConnection.isSome = true ∧
     (initWebRTC (Except.error e) fr s).2.2.dataChannel.isSome = true ∧
     (initWebRTC (Except.error e) fr s).2.2.conversationActive = s.conversationActive ∧
     LogEntry.webrtcInitError e ∈ (initWebRTC (Except.error e) fr s).2.2.log) ∧
    ((initWebRTC (Except.ok o) (Except.error e) s).1 = false ∧
     (initWebRTC (Except.ok o) (Except.error e) s).2.2.peerConnection.isSome = true ∧
     (initWebRTC (Except.ok o) (Except.error e) s).2.2.dataChannel.isSome = true ∧
     (initWebRTC (Except.ok o) (Except.error e) s).2.2.conversationActive = s.conversationActive ∧
     LogEntry.webrtcInitError e ∈ (initWebRTC (Except.ok o) (Except.error e) s).2.2.log) ∧
    ((initWebRTC (Except.ok o) (Except.ok resp) s).1 = false ∧
     (initWebRTC (Except.ok o) (Except.ok resp) s).2.2.peerConnection.isSome = true ∧
     (initWebRTC (Except.ok o) (Except.ok resp) s).2.2.dataChannel.isSome = true ∧
     (initWebRTC (Except.ok o) (Except.ok resp) s).2.2.conversationActive = s.conversationActive ∧
     LogEntry.webrtcInitError ("HTTP error! status: " ++ toString resp.status) ∈
       (initWebRTC (Except.ok o) (Except.ok resp) s).2.2.log) := by
  refine ⟨?_, ?_, ?_⟩
  · simp [initWebRTC]
  · simp [initWebRTC]
  · simp [initWebRTC, hresp]

/-- C3 witness: the amended statement at the module-load state, with a
thrown offer error, a thrown network error, and a 500 status. -/
theorem C3_init_failure_witness :
    ¬(200 ≤ (500 : Nat) ∧ (500 : Nat) ≤ 299) ∧
    (initWebRTC (Except.error "offer failed")
      (Except.ok ⟨500, "server error"⟩) initialState).1 = false ∧
    (initWebRTC (Except.ok "v=0 offer") (Except.error "network down")
      initialState).2.2.dataChannel.isSome = true ∧
    (initWebRTC (Except.ok "v=0 offer") (Except.ok ⟨500, "server error"⟩)
      initialState).2.2.peerConnection.isSome = true := by
  have h := C3_init_failure_amended initialState "network down" "v=0 offer"
    (Except.ok ⟨500, "server error"⟩) ⟨500, "server error"⟩ (by decide)
  have h2 := C3_init_failure_amended initialState "offer failed" "v=0 offer"
    (Except.ok ⟨500, "server error"⟩) ⟨500, "server error"⟩ (by decide)
  exact ⟨by decide, h2.1.1, h.2.1.2.2.1, h.2.2.2.1⟩

/-- C4 counterexample: the capture-iff-Active invariant is not preserved by
teardown: cleanup (src/app.js:294-302) stops recording but never resets
`conversationActive`, so invoking it from the reachable Active state yields
a reachable state with capture stopped yet the conversation still flagged
Active.  (The source then calls `process.exit(0)`.) -/
theorem C4_invariant_counterexample :
    ReachableFull tornDownState ∧
    tornDownState.recording = none ∧
    tornDownState.conversationActive = true := by
  refine ⟨?_, by decide, by decide⟩
  show ReachableFull (cleanup (startConversation (channelOpen
    (initWebRTC (Except.ok "v=0 offer") (Except.ok ⟨200, "v=0 answer"⟩)
      initialState).2.2)))
  exact ReachableFull.step
    (ReachableFull.step
      (ReachableFull.step
        (ReachableFull.step ReachableFull.start
          (StepFull.nc (StepNC.init _ _ _)))
        (StepFull.nc (StepNC.chanOpen _)))
      (StepFull.nc (StepNC.start _)))
    (StepFull.teardown _)

/-- C4 amended: in every state reachable through the conversation
operations and environment events other than teardown, capture is running
exactly when the conversation is Active (`recording` is non-null exactly
when `conversationActive` is true); every such operation preserves the
invariant.  Teardown is the exception the counterexample exhibits: it
stops capture without clearing the Active flag, immediately before the
process exits. -/
theorem C4_invariant_amended (s : AppState) (h : ReachableNC s) :
    s.recording.isSome = s.conversationActive := by
  induction h with
  | start => rfl
  | step hr hs ih => exact stepNC_preserves hs ih

/-- C4 witness: the amended invariant at the reachable Active state. -/
theorem C4_invariant_witness :
    ReachableNC activeState ∧
    activeState.recording.isSome = activeState.conversationActive := by
  have hr : ReachableNC activeState := by
    show ReachableNC (startConversation (channelOpen
      (initWebRTC (Except.ok "v=0 offer") (Except.ok ⟨200, "v=0 answer"⟩)
        initialState).2.2))
    exact ReachableNC.step
      (ReachableNC.step
        (ReachableNC.step ReachableNC.start (StepNC.init _ _ _))
        (StepNC.chanOpen _))
      (StepNC.start _)
  exact ⟨hr, C4_invariant_amended activeState hr⟩

/-- C7 counterexample: a 200 response whose parsed body has a
`client_secret` object lacking the nested `value` field does not fail as
malformed: in JavaScript, `({}).value` is `undefined` without throwing, so
`resolve(parsedData.client_secret.value)` resolves the promise (with
`undefined`, `KeyResult.ok none`) instead of rejecting. -/
theorem C7_credential_counterexample :
    getEphemeralKey 200 "session json"
      (some (Jv.jobj [("client_secret", Jv.jobj [])])) = KeyResult.ok none :=
  rfl

/-- C7 amended: every non-200 status fails with an error carrying that
status and the response body verbatim; a 200 response whose body does not
parse, or whose `client_secret` access throws, or whose `client_secret` is
undefined (absent) or null (so that reading `.value` throws), fails as
malformed; a 200 body whose `client_secret.value` is present resolves with
that nested secret value; but a 200 body whose `client_secret` is a
non-null value lacking `value` resolves with undefined instead of
failing. -/
theorem C7_credential_amended (status : Nat) (body : String)
    (parsed : Option Jv) (dataV cs v : Jv) :
    (status ≠ 200 →
      getEphemeralKey status body parsed = KeyResult.statusError status body) ∧
    (getEphemeralKey 200 body none = KeyResult.parseError) ∧
    (jsAccess (some dataV) "client_secret" = Except.error () →
      getEphemeralKey 200 body (some dataV) = KeyResult.parseError) ∧
    (jsAccess (some dataV) "client_secret" = Except.ok none →
      getEphemeralKey 200 body (some dataV) = KeyResult.parseError) ∧
    (jsAccess (some dataV) "client_secret" = Except.ok (some cs) →
      jsAccess (some cs) "value" = Except.error () →
      getEphemeralKey 200 body (some dataV) = KeyResult.parseError) ∧
    (jsAccess (some dataV) "client_secret" = Except.ok (some cs) →
      jsAccess (some cs) "value" = Except.ok (some v) →
      getEphemeralKey 200 body (some dataV) = KeyResult.ok (some v)) ∧
    (jsAccess (some dataV) "client_secret" = Except.ok (some cs) →
      jsAccess (some cs) "value" = Except.ok none →
      getEphemeralKey 200 body (some dataV) = KeyResult.ok none) := by
  refine ⟨?_, rfl, ?_, ?_, ?_, ?_, ?_⟩
  · intro h
    unfold getEphemeralKey
    have hb : (status == 200) = false := by simpa using h
    simp [hb]
  · intro h1
    unfold getEphemeralKey
    simp [h1]
  · intro h1
    unfold getEphemeralKey
    simp only [h1]
    rfl
  · intro h1 h2
    unfold getEphemeralKey
    simp only [h1]
    simp only [h2]
    rfl
  · intro h1 h2
    unfold getEphemeralKey
    simp only [h1]
    simp only [h2]
    rfl
  · intro h1 h2
    unfold getEphemeralKey
    simp only [h1]
    simp only [h2]
    rfl

/-- C7 witness: the 401 invalid-key scenario, the well-formed 200 response,
and a 200 response whose object lacks `client_secret` entirely. -/
theorem C7_credential_witness :
    getEphemeralKey 401 "invalid key body" none =
      KeyResult.statusError 401 "invalid key body" ∧
    getEphemeralKey 200 "session json"
      (some (Jv.jobj [("client_secret", Jv.jobj [("value", Jv.jstr "ek-abc")])])) =
      KeyResult.ok (some (Jv.jstr "ek-abc")) ∧
    getEphemeralKey 200 "session json" (some (Jv.jobj [])) =
      KeyResult.parseError := by
  refine ⟨?_, ?_, ?_⟩
  · exact (C7_credential_amended 401 "invalid key body" none Jv.jnull Jv.jnull
      Jv.jnull).1 (by decide)
  · exact (C7_credential_amended 200 "session json" none
      (Jv.jobj [("client_secret", Jv.jobj [("value", Jv.jstr "ek-abc")])])
      (Jv.jobj [("value", Jv.jstr "ek-abc")]) (Jv.jstr "ek-abc")).2.2.2.2.2.1
      rfl rfl
  · exact (C7_credential_amended 200 "session json" none
      (Jv.jobj []) Jv.jnull Jv.jnull).2.2.2.1 rfl

/-- C9: within one connection attempt with the offer created successfully,
initWebRTC performs create offer, set local description, POST of the offer
SDP, and remote-description application in exactly that order, each exactly
once; on a status-200 signaling response the applied answer is the
SessionDescription whose sdp is the raw response body, and on any non-ok
status the attempt fails with no answer applied. -/
theorem C9_negotiation_sequence (offerSdp : String) (resp : FetchResponse)
    (s : AppState) :
    (resp.status = 200 →
      (initWebRTC (Except.ok offerSdp) (Except.ok resp) s).2.1 =
        [NegStep.createOffer, NegStep.setLocal offerSdp,
         NegStep.postOffer offerSdp, NegStep.applyAnswer "answer" resp.body] ∧
      (initWebRTC (Except.ok offerSdp) (Except.ok resp) s).1 = true) ∧
    (¬(200 ≤ resp.status ∧ resp.status ≤ 299) →
      (initWebRTC (Except.ok offerSdp) (Except.ok resp) s).2.1 =
        [NegStep.createOffer, NegStep.setLocal offerSdp,
         NegStep.postOffer offerSdp] ∧
      (initWebRTC (Except.ok offerSdp) (Except.ok resp) s).1 = false) := by
  constructor
  · intro h
    have hc : 200 ≤ resp.status ∧ resp.status ≤ 299 := by omega
    simp [initWebRTC, hc]
  · intro h
    simp [initWebRTC, h]

/-- C9 witness: a 200 answer is applied with the body as its sdp; a 500
response fails with no answer applied. -/
theorem C9_negotiation_witness :
    (initWebRTC (Except.ok "v=0 offer") (Except.ok ⟨200, "v=0 answer"⟩)
      initialState).2.1 =
      [NegStep.createOffer, NegStep.setLocal "v=0 offer",
       NegStep.postOffer "v=0 offer", NegStep.applyAnswer "answer" "v=0 answer"] ∧
    (initWebRTC (Except.ok "v=0 offer") (Except.ok ⟨500, "server error"⟩)
      initialState).2.1 =
      [NegStep.createOffer, NegStep.setLocal "v=0 offer",
       NegStep.postOffer "v=0 offer"] ∧
    (initWebRTC (Except.ok "v=0 offer") (Except.ok ⟨500, "server error"⟩)
      initialState).1 = false := by
  have h200 := (C9_negotiation_sequence "v=0 offer" ⟨200, "v=0 answer"⟩
    initialState).1 rfl
  have h500 := (C9_negotiation_sequence "v=0 offer" ⟨500, "server error"⟩
    initialState).2 (by decide)
  exact ⟨h200.1, h500.1, h500.2⟩

theorem playsAttempted_onMessage (n : Nat) (ok : Bool) (ev : InEvent)
    (s : AppState) :
    playsAttempted (onMessage n ok ev s) =
      playsAttempted s + (if isAudioChunkWithData ev then 1 else 0) := by
  obtain ⟨ty, audio⟩ := ev
  by_cases hty : ty == "audio.chunk"
  · cases audio with
    | none =>
      simp [onMessage, handleAudioChunk, isAudioChunkWithData, playsAttempted,
        hty, List.filter_append]
    | some p =>
      obtain ⟨d⟩ := p
      cases d with
      | none =>
        simp [onMessage, handleAudioChunk, isAudioChunkWithData, playsAttempted,
          hty, List.filter_append]
      | some b =>
        by_cases hb : b == "" <;> by_cases hok : ok <;>
          simp [onMessage, handleAudioChunk, isAudioChunkWithData, playsAttempted,
            hty, hb, hok, List.filter_append]
  · simp [onMessage, isAudioChunkWithData, hty, playsAttempted,
      List.filter_append]

/-- C8: delivering any sequence of inbound data-channel events — however
the playback of each audio chunk succeeds or fails — leaves the
conversation state untouched (`conversationActive`, `recording`, the data
channel and the peer connection are all unchanged), and the number of
playback attempts equals the number of audio-bearing chunks in the
sequence, independent of the per-chunk playback outcomes: a failed
playback never prevents a later chunk from being attempted. -/
theorem C8_render_failure_nonfatal (msgs : List (Nat × Bool × InEvent))
    (s : AppState) :
    (processMessages msgs s).conversationActive = s.conversationActive ∧
    (processMessages msgs s).recording = s.recording ∧
    (processMessages msgs s).dataChannel = s.dataChannel ∧
    (processMessages msgs s).peerConnection = s.peerConnection ∧
    playsAttempted (processMessages msgs s) =
      playsAttempted s +
        (msgs.filter (fun m => isAudioChunkWithData m.2.2)).length := by
  induction msgs generalizing s with
  | nil => simp [processMessages]
  | cons m rest ih =>
    have h1 := onMessage_preserves m.1 m.2.1 m.2.2 s
    have h2 := ih (onMessage m.1 m.2.1 m.2.2 s)
    have h3 := playsAttempted_onMessage m.1 m.2.1 m.2.2 s
    unfold processMessages
    refine ⟨?_, ?_, ?_, ?_, ?_⟩
    · rw [h2.1, h1.2.1]
    · rw [h2.2.1, h1.1]
    · rw [h2.2.2.1, h1.2.2.1]
    · rw [h2.2.2.2.1, h1.2.2.2]
    · rw [h2.2.2.2.2, h3, List.filter_cons]
      by_cases hm : isAudioChunkWithData m.2.2 <;> simp [hm] <;> omega

/-- C10: for each inbound audio-chunk event carrying (truthy) base64 audio
data, the temp file is written and, when playback succeeds, deleted; when
playback fails the error is logged and the file is retained on disk; an
event lacking the audio payload or its data field changes nothing — no
file is written and no playback is attempted. -/
theorem C10_chunk_file_lifecycle (now : Nat) (pok : Bool) (ev : InEvent)
    (payload : AudioPayload) (b64 : String) (s : AppState) :
    (ev.audio = some payload → payload.data = some b64 → b64 ≠ "" →
      ((handleAudioChunk now true ev s).tempFiles =
        fsUnlink (fsWrite s.tempFiles (chunkFile now) b64) (chunkFile now)) ∧
      (∀ c, (chunkFile now, c) ∈ (handleAudioChunk now true ev s).tempFiles →
        False) ∧
      ((handleAudioChunk now false ev s).tempFiles =
        fsWrite s.tempFiles (chunkFile now) b64) ∧
      ((chunkFile now, b64) ∈ (handleAudioChunk now false ev s).tempFiles) ∧
      ((handleAudioChunk now false ev s).log =
        s.log ++ [LogEntry.playingAudioChunk, LogEntry.errorPlayingChunk])) ∧
    (ev.audio = none → handleAudioChunk now pok ev s = s) ∧
    (ev.audio = some payload → payload.data = none →
      handleAudioChunk now pok ev s = s) := by
  obtain ⟨ty, audio⟩ := ev
  refine ⟨?_, ?_, ?_⟩
  · intro hA hD hb
    simp only at hA
    subst hA
    obtain ⟨d⟩ := payload
    simp only at hD
    subst hD
    have hb' : (b64 == "") = false := by simpa using hb
    refine ⟨?_, ?_, ?_, ?_, ?_⟩
    · simp [handleAudioChunk, hb']
    · intro c hc
      simp only [handleAudioChunk, hb'] at hc
      simp only [Bool.false_eq_true, if_false, fsUnlink, List.mem_filter] at hc
      simp at hc
    · simp [handleAudioChunk, hb']
    · simp [handleAudioChunk, hb', fsWrite]
    · simp [handleAudioChunk, hb']
  · intro hA
    simp only at hA
    subst hA
    rfl
  · intro hA hD
    simp only at hA
    subst hA
    obtain ⟨d⟩ := payload
    simp only at hD
    subst hD
    rfl

/-- C10 witness: a concrete audio chunk at the empty temp directory: on
success the chunk file is gone, on failure it remains with the error
logged; and a chunk event with no audio field is a no-op. -/
theorem C10_chunk_witness :
    ((handleAudioChunk 7 true
        { type := "audio.chunk", audio := some { data := some "UklGRg==" } }
        initialState).tempFiles =
      fsUnlink (fsWrite initialState.tempFiles (chunkFile 7) "UklGRg==")
        (chunkFile 7)) ∧
    ((chunkFile 7, "UklGRg==") ∈ (handleAudioChunk 7 false
        { type := "audio.chunk", audio := some { data := some "UklGRg==" } }
        initialState).tempFiles) ∧
    (handleAudioChunk 7 true
        { type := "audio.chunk", audio := none } initialState = initialState) := by
  have h := C10_chunk_file_lifecycle 7 true
    { type := "audio.chunk", audio := some { data := some "UklGRg==" } }
    { data := some "UklGRg==" } "UklGRg==" initialState
  have h2 := C10_chunk_file_lifecycle 7 true
    { type := "audio.chunk", audio := none }
    { data := some "UklGRg==" } "UklGRg==" initialState
  have hmain := h.1 rfl rfl (by decide)
  exact ⟨hmain.1, hmain.2.2.2.1, h2.2.1 rfl⟩

end PlushPal
